import Mathlib

/-!
Shallow embedding of the goliz candlestick summarization-and-rendering core
(`analysis.go`, `chart.go`).  Go `float64` arithmetic is modelled over `ℚ`
(exact field arithmetic, faithful to the real-number reading of the code);
Go `int` arithmetic is modelled over `ℤ` with explicit truncating division
and truncating float→int conversion.  Go runtime panics (integer division
by zero, slice/index out of range) are modelled as explicit error values so
that "the code crashes here" is visible in the model.
-/

set_option allowUnsafeReducibility true

attribute [local semireducible] Rat.mul Rat.inv Rat.add Rat.sub Rat.ofScientific

namespace Goliz

/-- Go `int(x)` conversion of a `float64`: truncation toward zero. -/
def goTrunc (q : ℚ) : ℤ := if 0 ≤ q then ⌊q⌋ else ⌈q⌉

/-- Go integer division: truncation toward zero (`Int.div` is T-division). -/
def goDiv (a b : ℤ) : ℤ := Int.tdiv a b

/-- Structure `Candlestick` from `binance.go` (times modelled as naturals, prices as `ℚ`). -/
structure Candlestick where
  OpenTime  : ℕ := 0
  Open      : ℚ := 0
  High      : ℚ := 0
  Low       : ℚ := 0
  Close     : ℚ := 0
  Volume    : ℚ := 0
  CloseTime : ℕ := 0
  deriving DecidableEq, Repr, Inhabited

/-- Structure `CandleSimple` from `analysis.go` (the Go field `Type` is called `Kind` here,
`Type` being reserved in Lean). -/
structure CandleSimple where
  Time   : ℕ := 0
  O      : ℚ := 0
  H      : ℚ := 0
  L      : ℚ := 0
  C      : ℚ := 0
  Vol    : ℚ := 0
  Change : ℚ := 0
  Kind   : String := ""
  deriving DecidableEq, Repr, Inhabited

/-- Structure `CandleDataSummary` from `analysis.go`. -/
structure CandleDataSummary where
  Interval    : String := ""
  CandleCount : ℕ := 0
  StartTime   : ℕ := 0
  EndTime     : ℕ := 0
  Open        : ℚ := 0
  High        : ℚ := 0
  Low         : ℚ := 0
  Close       : ℚ := 0
  TotalVolume : ℚ := 0
  AvgVolume   : ℚ := 0
  PriceChange : ℚ := 0
  Trend       : String := ""
  MA20        : ℚ := 0
  MA50        : ℚ := 0
  RSI         : ℚ := 0
  Volatility  : String := ""
  LastCandles : List CandleSimple := []
  deriving DecidableEq, Repr, Inhabited

/-- Close price of the `i`-th candle (out-of-range reads return the zero candle;
every use below stays in range, mirroring Go's in-bounds indexing). -/
def closeAt (candles : List Candlestick) (i : ℕ) : ℚ :=
  (candles.getD i default).Close

/-- Highest high over the bars, seeded from the first bar (loop at
`analysis.go:60-68`). -/
def summaryHigh (candles : List Candlestick) : ℚ :=
  candles.foldl (fun acc c => if acc < c.High then c.High else acc)
    (candles.headD default).High

/-- Lowest low over the bars, seeded from the first bar. -/
def summaryLow (candles : List Candlestick) : ℚ :=
  candles.foldl (fun acc c => if c.Low < acc then c.Low else acc)
    (candles.headD default).Low

/-- Total volume over the bars. -/
def totalVolumeOf (candles : List Candlestick) : ℚ :=
  candles.foldl (fun acc c => acc + c.Volume) 0

/-- Trailing mean of the last `period` closes, or 0 when there is not enough
history (`analysis.go:77-91`). -/
def trailingMA (candles : List Candlestick) (period : ℕ) : ℚ :=
  if period ≤ candles.length then
    ((List.range' (candles.length - period) period).foldl
      (fun s i => s + closeAt candles i) 0) / (period : ℚ)
  else 0

/-- One step of the 14-period RSI loop (`analysis.go:96-103`): a positive
close-to-close delta adds to gains, any other delta subtracts from losses. -/
def rsiStep (candles : List Candlestick) (gl : ℚ × ℚ) (i : ℕ) : ℚ × ℚ :=
  let change := closeAt candles i - closeAt candles (i - 1)
  if 0 < change then (gl.1 + change, gl.2) else (gl.1, gl.2 - change)

/-- Gains/losses accumulator of the 14-period RSI loop (`analysis.go:95-103`),
over indices `len-14 .. len-1`. -/
def rsiGainsLosses (candles : List Candlestick) : ℚ × ℚ :=
  (List.range' (candles.length - 14) 14).foldl (rsiStep candles) ((0 : ℚ), (0 : ℚ))

/-- Fourteen-period RSI (`analysis.go:93-112`): requires at least 15 bars, else
the 0 sentinel; when the average loss (`losses/14`) is zero the RSI is pinned
to 100. -/
def rsiOf (candles : List Candlestick) : ℚ :=
  if 15 ≤ candles.length then
    if 0 < (rsiGainsLosses candles).2 / 14 then
      100 - 100 / (1 + ((rsiGainsLosses candles).1 / 14) / ((rsiGainsLosses candles).2 / 14))
    else 100
  else 0

/-- Trend classification (`analysis.go:114-121`). -/
def trendOf (close ma20 ma50 : ℚ) : String :=
  if ma20 < close ∧ ma50 < ma20 then "BULLISH"
  else if close < ma20 ∧ ma20 < ma50 then "BEARISH"
  else "SIDEWAYS"

/-- ATR-based volatility classification (`analysis.go:123-138`). -/
def volatilityOf (candles : List Candlestick) (close : ℚ) : String :=
  if 14 ≤ candles.length then
    let atrSum := (List.range' (candles.length - 14) 14).foldl
      (fun s i => s + ((candles.getD i default).High - (candles.getD i default).Low)) 0
    let atr := atrSum / 14
    let atrPercent := (atr / close) * 100
    if 3 < atrPercent then "HIGH"
    else if 3 / 2 < atrPercent then "MEDIUM"
    else "LOW"
  else ""

/-- One entry of the `LastCandles` window (`analysis.go:145-175`): OHLCV echo,
change vs the previous close in the FULL sequence when `0 < i`, and the
BULL/BEAR/DOJI typing by body ratio (untyped when `high = low`). -/
def mkCandleSimple (candles : List Candlestick) (i : ℕ) : CandleSimple :=
  let c := candles.getD i default
  let change :=
    if 0 < i then ((c.Close - closeAt candles (i - 1)) / closeAt candles (i - 1)) * 100
    else 0
  let bodySize := c.Close - c.Open
  let totalRange := c.High - c.Low
  let kind :=
    if 0 < totalRange then
      let bodyRatio := bodySize / totalRange
      if 1 / 10 < bodyRatio then "BULL"
      else if bodyRatio < -(1 / 10) then "BEAR"
      else "DOJI"
    else ""
  { Time := c.OpenTime, O := c.Open, H := c.High, L := c.Low, C := c.Close,
    Vol := c.Volume, Change := change, Kind := kind }

/-- The last-10-candles window (`analysis.go:141-176`): indices from
`max (len-10) 0` to `len-1` of the full sequence. -/
def lastCandlesOf (candles : List Candlestick) : List CandleSimple :=
  let startIdx := candles.length - 10
  (List.range' startIdx (candles.length - startIdx)).map (mkCandleSimple candles)

/-- Function `AnalyzeCandlestickData` from `analysis.go:42-179`.  The empty input
returns the all-zero summary sentinel. -/
def AnalyzeCandlestickData (candles : List Candlestick) (interval : String) :
    CandleDataSummary :=
  match candles with
  | [] => {}
  | c0 :: _ =>
    let close := (candles.getLast?.getD default).Close
    let opn := c0.Open
    let ma20 := trailingMA candles 20
    let ma50 := trailingMA candles 50
    { Interval := interval
      CandleCount := candles.length
      StartTime := c0.OpenTime
      EndTime := (candles.getLast?.getD default).CloseTime
      Open := opn
      Close := close
      High := summaryHigh candles
      Low := summaryLow candles
      TotalVolume := totalVolumeOf candles
      AvgVolume := totalVolumeOf candles / (candles.length : ℚ)
      PriceChange := if 0 < opn then ((close - opn) / opn) * 100 else 0
      MA20 := ma20
      MA50 := ma50
      RSI := rsiOf candles
      Trend := trendOf close ma20 ma50
      Volatility := volatilityOf candles close
      LastCandles := lastCandlesOf candles }

/-! ### Chart rasterizer model (`chart.go`) -/

/-- Structure `ChartConfig` from `chart.go:18-29` (Go `int` fields as `ℤ`). -/
structure ChartConfig where
  Width       : ℤ
  Height      : ℤ
  Padding     : ℤ
  CandleWidth : ℤ
  CandleGap   : ℤ
  ShowVolume  : Bool
  ShowMA      : Bool
  MAperiods   : List ℕ
  DarkMode    : Bool
  deriving DecidableEq, Repr

/-- Default configuration, `DefaultChartConfig` from `chart.go:31-44`. -/
def DefaultChartConfig : ChartConfig :=
  { Width := 1200, Height := 600, Padding := 60, CandleWidth := 4, CandleGap := 2,
    ShowVolume := true, ShowMA := true, MAperiods := [20, 50], DarkMode := true }

/-- Left edge of the plot area (`chart.go:99`). -/
def chartLeftOf (config : ChartConfig) : ℤ := config.Padding

/-- Right edge of the plot area (`chart.go:100`). -/
def chartRightOf (config : ChartConfig) : ℤ := config.Width - config.Padding

/-- Top edge of the plot area (`chart.go:101`). -/
def chartTopOf (config : ChartConfig) : ℤ := config.Padding

/-- Bottom edge of the price region (`chart.go:102-106`): 75% of the height
above the bottom padding when volume is shown. -/
def chartBottomOf (config : ChartConfig) : ℤ :=
  if config.ShowVolume then
    goTrunc (((config.Height - config.Padding : ℤ) : ℚ) * (75 / 100))
  else config.Height - config.Padding

/-- Pixel width of the plot area (`chart.go:108`). -/
def chartWidthOf (config : ChartConfig) : ℤ := chartRightOf config - chartLeftOf config

/-- Pixel height of the price region (`chart.go:109`). -/
def chartHeightOf (config : ChartConfig) : ℤ := chartBottomOf config - chartTopOf config

/-- Raw (min low, max high) over the bars, seeded from the first bar
(`chart.go:78-90`). -/
def rawPriceBounds (candles : List Candlestick) : ℚ × ℚ :=
  candles.foldl
    (fun acc c =>
      (if c.Low < acc.1 then c.Low else acc.1, if acc.2 < c.High then c.High else acc.2))
    ((candles.headD default).Low, (candles.headD default).High)

/-- Maximum volume over the bars, seeded from the first bar. -/
def maxVolumeOf (candles : List Candlestick) : ℚ :=
  candles.foldl (fun acc c => if acc < c.Volume then c.Volume else acc)
    (candles.headD default).Volume

/-- Five-percent padding on each side of the price range (`chart.go:93-96`). -/
def paddedBounds (mn mx : ℚ) : ℚ × ℚ :=
  let priceRange := mx - mn
  (mn - priceRange * (5 / 100), mx + priceRange * (5 / 100))

/-- Windowing of `chart.go:124-128`: keep the most recent `maxCandles` bars,
`maxCandles = chartWidth / (candleWidth + candleGap)`.  `none` models the Go
runtime panics: integer division by zero, and the out-of-range slice
`candles[len-maxCandles:]` when `maxCandles` is negative. -/
def windowCandles (candles : List Candlestick) (chartWidth totalCandleWidth : ℤ) :
    Option (List Candlestick) :=
  if totalCandleWidth = 0 then none
  else
    let maxCandles := goDiv chartWidth totalCandleWidth
    if maxCandles < (candles.length : ℤ) then
      if maxCandles < 0 then none
      else some (candles.drop (candles.length - maxCandles.toNat))
    else some candles

/-- Vertical price-to-pixel mapping used for every candle/MA/level Y
(`chart.go:135-138`): `chartTop + int((maxPrice-price)/priceRange*chartHeight)`,
with Go's truncating float→int conversion. -/
def pixelY (chartTop chartHeight : ℤ) (maxPrice priceRange price : ℚ) : ℤ :=
  chartTop + goTrunc ((maxPrice - price) / priceRange * (chartHeight : ℚ))

/-- Y coordinates of the horizontal grid rows (`chart.go:247-255`): the loop
runs `i = 0 .. count` inclusive with `step = (y2-y1)/count`. -/
def gridRowYs (y1 y2 : ℤ) (count : ℕ) : List ℤ :=
  let step := goDiv (y2 - y1) (count : ℤ)
  (List.range (count + 1)).map fun i : ℕ => y1 + (i : ℤ) * step

/-- Function `calculateMA` from `chart.go:257-271`: trailing mean at every index, 0 for
the first `period-1` indices. -/
def calculateMA (candles : List Candlestick) (period : ℕ) : List ℚ :=
  (List.range candles.length).map fun i =>
    if i < period - 1 then 0
    else ((List.range period).foldl (fun s j => s + closeAt candles (i - j)) 0) / (period : ℚ)

/-- Vertex list of one MA polyline (`drawMALine`, `chart.go:273-287`): one
vertex per non-zero MA value; consecutive vertices are joined by the
Bresenham primitive. -/
def maPolylinePoints (ma : List ℚ) (chartLeft chartTop totalCandleWidth : ℤ)
    (maxPrice priceRange : ℚ) (chartHeight : ℤ) : List (ℤ × ℤ) :=
  (List.range ma.length).filterMap fun i =>
    if ma.getD i 0 = 0 then none
    else some (chartLeft + (i : ℤ) * totalCandleWidth + goDiv totalCandleWidth 2,
               pixelY chartTop chartHeight maxPrice priceRange (ma.getD i 0))

/-- The MA polylines actually drawn (`chart.go:176-183`): when `ShowMA` and the
visible window has more than 50 bars, exactly the period-20 and period-50
polylines, regardless of `config.MAperiods`. -/
def drawnMALines (candles : List Candlestick) (config : ChartConfig)
    (maxPrice priceRange : ℚ) : List (ℕ × List (ℤ × ℤ)) :=
  if config.ShowMA then
    if 50 < candles.length then
      [(20, maPolylinePoints (calculateMA candles 20) (chartLeftOf config)
              (chartTopOf config) (config.CandleWidth + config.CandleGap)
              maxPrice priceRange (chartHeightOf config)),
       (50, maPolylinePoints (calculateMA candles 50) (chartLeftOf config)
              (chartTopOf config) (config.CandleWidth + config.CandleGap)
              maxPrice priceRange (chartHeightOf config))]
    else []
  else []

/-- Modelled from the spec: "one polyline per configured period" — the MA
polylines a spec-faithful renderer would draw, one per entry of
`config.maPeriods`.  Kept separate from `drawnMALines` (the code's behaviour)
to compare the two. -/
def drawnMALinesPerSpec (candles : List Candlestick) (config : ChartConfig)
    (maxPrice priceRange : ℚ) : List (ℕ × List (ℤ × ℤ)) :=
  if config.ShowMA then
    if 50 < candles.length then
      config.MAperiods.map fun p =>
        (p, maPolylinePoints (calculateMA candles p) (chartLeftOf config)
              (chartTopOf config) (config.CandleWidth + config.CandleGap)
              maxPrice priceRange (chartHeightOf config))
    else []
  else []

/-- Failure modes of a render: the explicit "no candle data to render" error,
and the two Go runtime panics the rendering path can hit. -/
inductive RenderError where
  | noData
  | panicDivByZero
  | panicIndexOutOfRange
  deriving DecidableEq, Repr

/-- Geometry actually produced by `GenerateCandlestickChart`: price domain,
visible (windowed) bars, grid rows, MA polylines, and the close used for the
"current price" label (`chart.go:197-198`). -/
structure RenderResult where
  minPrice   : ℚ
  maxPrice   : ℚ
  priceRange : ℚ
  maxVolume  : ℚ
  visible    : List Candlestick
  gridYs     : List ℤ
  maLines    : List (ℕ × List (ℤ × ℤ))
  lastClose  : ℚ
  deriving DecidableEq, Repr

/-- Function `GenerateCandlestickChart` from `chart.go:61-216`, down to the geometry it
draws (pixels, colors and text are not modelled).  The price range is computed
over the FULL bar list, the windowing happens afterwards; the read of the last
visible candle at `chart.go:197` panics when the window is empty. -/
def GenerateCandlestickChart (candles : List Candlestick) (config : ChartConfig) :
    Except RenderError RenderResult :=
  match candles with
  | [] => .error .noData
  | _ :: _ =>
    let raw := rawPriceBounds candles
    let padded := paddedBounds raw.1 raw.2
    let minPrice := padded.1
    let maxPrice := padded.2
    let priceRange := maxPrice - minPrice
    match windowCandles candles (chartWidthOf config) (config.CandleWidth + config.CandleGap) with
    | none =>
      .error (if config.CandleWidth + config.CandleGap = 0
              then .panicDivByZero else .panicIndexOutOfRange)
    | some visible =>
      match visible.getLast? with
      | none => .error .panicIndexOutOfRange
      | some lastCandle =>
        .ok { minPrice := minPrice
              maxPrice := maxPrice
              priceRange := priceRange
              maxVolume := maxVolumeOf candles
              visible := visible
              gridYs := gridRowYs (chartTopOf config) (chartBottomOf config) 5
              maLines := drawnMALines visible config maxPrice priceRange
              lastClose := lastCandle.Close }

/-! ### Levels-aware render (`GenerateChartWithLevels`, `chart.go:478-680`) -/

/-- Structure `TradeLevels` from `chart.go:462-469`; 0 means "absent". -/
structure TradeLevels where
  Entry : ℚ := 0
  SL    : ℚ := 0
  TP1   : ℚ := 0
  TP2   : ℚ := 0
  TP3   : ℚ := 0
  deriving DecidableEq, Repr

/-- Domain extension for overlays (`chart.go:510-522`): the stop-loss below the
bar minimum gets a 0.5% buffer; for take-profits the code checks TP3, then
TP2, then TP1 — index priority, not the numerically highest level. -/
def extendBounds (mn mx : ℚ) (levels : Option TradeLevels) : ℚ × ℚ :=
  match levels with
  | none => (mn, mx)
  | some lv =>
    let mn' := if 0 < lv.SL ∧ lv.SL < mn then lv.SL * (995 / 1000) else mn
    let mx' :=
      if 0 < lv.TP3 ∧ mx < lv.TP3 then lv.TP3 * (1005 / 1000)
      else if 0 < lv.TP2 ∧ mx < lv.TP2 then lv.TP2 * (1005 / 1000)
      else if 0 < lv.TP1 ∧ mx < lv.TP1 then lv.TP1 * (1005 / 1000)
      else mx
    (mn', mx')

/-- Mapping domain of the levels-aware render (`chart.go:495-528`): overlay
extension first, then the 5% padding. -/
def levelsBounds (mn mx : ℚ) (levels : Option TradeLevels) : ℚ × ℚ :=
  let ext := extendBounds mn mx levels
  paddedBounds ext.1 ext.2

/-- The fixed configuration `GenerateChartWithLevels` builds at
`chart.go:484-486`: the default with a 1400×700 canvas. -/
def levelsConfig : ChartConfig :=
  { DefaultChartConfig with Width := 1400, Height := 700 }

/-- Right edge of the levels chart (`chart.go:532`): 80 extra pixels are
reserved for the level labels. -/
def levelsChartRight : ℤ := levelsConfig.Width - levelsConfig.Padding - 80

/-- Top edge of the levels chart. -/
def levelsChartTop : ℤ := levelsConfig.Padding

/-- Bottom edge of the levels-chart price region (volume shown by default). -/
def levelsChartBottom : ℤ :=
  goTrunc (((levelsConfig.Height - levelsConfig.Padding : ℤ) : ℚ) * (75 / 100))

/-- Pixel height of the levels-chart price region. -/
def levelsChartHeight : ℤ := levelsChartBottom - levelsChartTop

/-- Pixel width of the levels-chart plot area. -/
def levelsChartWidth : ℤ := levelsChartRight - levelsConfig.Padding

/-- Y coordinate of one overlay level line (`chart.go:616`, `623`, `630`,
`637`, `644` all use the same mapping). -/
def levelY (maxPrice priceRange level : ℚ) : ℤ :=
  pixelY levelsChartTop levelsChartHeight maxPrice priceRange level

/-- The overlay lines actually drawn (`chart.go:612-648`): one line per
non-zero level, labelled, in source order. -/
def drawnLevelLines (levels : Option TradeLevels) (maxPrice priceRange : ℚ) :
    List (String × ℤ) :=
  match levels with
  | none => []
  | some lv =>
    (if 0 < lv.Entry then [("ENTRY", levelY maxPrice priceRange lv.Entry)] else []) ++
    (if 0 < lv.SL then [("SL", levelY maxPrice priceRange lv.SL)] else []) ++
    (if 0 < lv.TP1 then [("TP1", levelY maxPrice priceRange lv.TP1)] else []) ++
    (if 0 < lv.TP2 then [("TP2", levelY maxPrice priceRange lv.TP2)] else []) ++
    (if 0 < lv.TP3 then [("TP3", levelY maxPrice priceRange lv.TP3)] else [])

/-- Geometry produced by `GenerateChartWithLevels`. -/
structure LevelsRenderResult where
  minPrice   : ℚ
  maxPrice   : ℚ
  priceRange : ℚ
  visible    : List Candlestick
  levelLines : List (String × ℤ)
  lastClose  : ℚ
  deriving DecidableEq, Repr

/-- Function `GenerateChartWithLevels` from `chart.go:478-680`, down to the geometry it
draws: bar bounds are extended for the overlay levels BEFORE the 5% padding,
then the same windowing/drawing pipeline runs with the fixed 1400×700 config. -/
def GenerateChartWithLevels (candles : List Candlestick) (levels : Option TradeLevels) :
    Except RenderError LevelsRenderResult :=
  match candles with
  | [] => .error .noData
  | _ :: _ =>
    let raw := rawPriceBounds candles
    let padded := levelsBounds raw.1 raw.2 levels
    let minPrice := padded.1
    let maxPrice := padded.2
    let priceRange := maxPrice - minPrice
    match windowCandles candles levelsChartWidth
        (levelsConfig.CandleWidth + levelsConfig.CandleGap) with
    | none => .error .panicIndexOutOfRange
    | some visible =>
      match visible.getLast? with
      | none => .error .panicIndexOutOfRange
      | some lastCandle =>
        .ok { minPrice := minPrice
              maxPrice := maxPrice
              priceRange := priceRange
              visible := visible
              levelLines := drawnLevelLines levels maxPrice priceRange
              lastClose := lastCandle.Close }

/-- Grid rows of a render, `[]` on failure (projection helper for closed
statements). -/
def gridYsOf (e : Except RenderError RenderResult) : List ℤ :=
  match e with
  | .ok r => r.gridYs
  | .error _ => []

/-- Level lines of a levels render, `[]` on failure. -/
def levelLinesOf (e : Except RenderError LevelsRenderResult) : List (String × ℤ) :=
  match e with
  | .ok r => r.levelLines
  | .error _ => []

/-- Mapping-domain maximum of a levels render, 0 on failure. -/
def maxPriceOfLevels (e : Except RenderError LevelsRenderResult) : ℚ :=
  match e with
  | .ok r => r.maxPrice
  | .error _ => 0

/-! ### Concrete inputs used by witnesses and counterexamples -/

/-- Ascending synthetic bar: opens at `n`, closes at `n + 1`. -/
def barAt (n : ℕ) : Candlestick :=
  { OpenTime := n, Open := n, High := (n : ℚ) + 1, Low := n, Close := (n : ℚ) + 1,
    Volume := 1, CloseTime := n + 1 }

/-- Three ascending bars. -/
def bars3 : List Candlestick := (List.range 3).map barAt

/-- Fourteen ascending bars: every close-to-close delta is positive. -/
def bars14 : List Candlestick := (List.range 14).map barAt

/-- Fifteen ascending bars: the 14 close-to-close deltas are all positive. -/
def bars15 : List Candlestick := (List.range 15).map barAt

/-- Fifty-one ascending bars: enough for the MA polylines to be drawn. -/
def bars51 : List Candlestick := (List.range 51).map barAt

/-- Flat bar: its close equals the previous bar's close. -/
def flatBar : Candlestick :=
  { OpenTime := 0, Open := 100, High := 101, Low := 99, Close := 100,
    Volume := 1, CloseTime := 1 }

/-- Eleven flat bars: consecutive closes are equal. -/
def flat11 : List Candlestick := List.replicate 11 flatBar

/-- Interval label used in concrete instantiations. -/
def itv1h : String := "1h"

/-- Single bar spanning prices 10 to 20. -/
def bar1020 : Candlestick :=
  { OpenTime := 0, Open := 10, High := 20, Low := 10, Close := 20,
    Volume := 1, CloseTime := 1 }

/-- Overlay whose numerically highest take-profit is TP1 = 100, while TP3 = 30
is lower; both are above the bar maximum. -/
def lvUnordered : TradeLevels := { Entry := 15, SL := 0, TP1 := 100, TP2 := 0, TP3 := 30 }

/-- Overlay with a stop-loss below and a TP3 above the 10-20 bar. -/
def lvOrdered : TradeLevels := { SL := 8, TP3 := 30 }

/-- Config whose plot area (5 px wide) is narrower than one candle slot (6 px). -/
def cfgNarrow : ChartConfig := { DefaultChartConfig with Width := 125 }

/-- Default config with the MA period list overridden to `[10]`. -/
def cfgMA10 : ChartConfig := { DefaultChartConfig with MAperiods := [10] }

/-! ### Helper lemmas -/

/-- Folding the RSI step over indices whose close-to-close delta is positive
leaves the loss component untouched. -/
theorem foldl_rsiStep_snd (candles : List Candlestick) :
    ∀ (l : List ℕ) (g : ℚ × ℚ),
      (∀ i ∈ l, closeAt candles (i - 1) < closeAt candles i) →
      (l.foldl (rsiStep candles) g).2 = g.2 := by
  intro l
  induction l with
  | nil => intro g _; rfl
  | cons a t ih =>
    intro g h
    have ha : closeAt candles (a - 1) < closeAt candles a := h a (List.mem_cons_self a t)
    have hstep : rsiStep candles g a =
        (g.1 + (closeAt candles a - closeAt candles (a - 1)), g.2) := by
      simp only [rsiStep]
      rw [if_pos (sub_pos.mpr ha)]
    rw [List.foldl_cons, hstep]
    exact ih _ (fun i hi => h i (List.mem_cons_of_mem a hi))

/-- Truncation of a nonnegative rational lies between any integer below it and
any integer strictly above it. -/
theorem goTrunc_bounds (q : ℚ) (a b : ℤ) (h0 : 0 ≤ q) (h1 : (a : ℚ) ≤ q)
    (h2 : q < (b : ℚ)) : a ≤ goTrunc q ∧ goTrunc q < b := by
  rw [goTrunc, if_pos h0]
  exact ⟨Int.le_floor.mpr h1, Int.floor_lt.mpr h2⟩

/-- The overlay extension never raises the lower bound. -/
theorem extendBounds_fst_le (mn mx : ℚ) (lv : TradeLevels) :
    (extendBounds mn mx (some lv)).1 ≤ mn := by
  simp only [extendBounds]
  split_ifs with h
  · linarith [h.1, h.2]
  · exact le_rfl

/-- The overlay extension never lowers the upper bound. -/
theorem le_extendBounds_snd (mn mx : ℚ) (lv : TradeLevels) :
    mx ≤ (extendBounds mn mx (some lv)).2 := by
  simp only [extendBounds]
  split_ifs with h1 h2 h3
  · linarith [h1.1, h1.2]
  · linarith [h2.1, h2.2]
  · linarith [h3.1, h3.2]
  · exact le_rfl

/-- When the stop-loss sits below the bar minimum, the extended lower bound is
exactly `stopLoss * 0.995`. -/
theorem extendBounds_fst_eq_sl (mn mx : ℚ) (lv : TradeLevels)
    (h : 0 < lv.SL ∧ lv.SL < mn) :
    (extendBounds mn mx (some lv)).1 = lv.SL * (995 / 1000) := by
  simp only [extendBounds]
  rw [if_pos h]

/-! ### Claims -/

/-- Claim C1 (amended): with exactly 15 bars whose 14 close-to-close deltas are
all positive, the RSI loss sum is zero and `Summarize` returns `rsi14 = 100`
exactly.  (With exactly 14 bars, as the claim literally reads, the RSI branch
requires at least 15 bars and the 0 sentinel is returned instead: see the
counterexample.) -/
theorem claim1_amended (candles : List Candlestick) (interval : String)
    (hlen : candles.length = 15)
    (hasc : ∀ i < 14, closeAt candles i < closeAt candles (i + 1)) :
    (AnalyzeCandlestickData candles interval).RSI = 100 := by
  cases candles with
  | nil => exact absurd hlen (by decide)
  | cons c0 rest =>
    have hproj : (AnalyzeCandlestickData (c0 :: rest) interval).RSI =
        rsiOf (c0 :: rest) := rfl
    rw [hproj]
    unfold rsiOf
    rw [if_pos (le_of_eq hlen.symm)]
    have hsnd : (rsiGainsLosses (c0 :: rest)).2 = 0 := by
      unfold rsiGainsLosses
      refine foldl_rsiStep_snd (c0 :: rest) _ ((0 : ℚ), (0 : ℚ)) ?_
      intro i hi
      rw [hlen] at hi
      have hmem := List.mem_range'_1.mp hi
      have h1 : 1 ≤ i := by omega
      have := hasc (i - 1) (by omega)
      rwa [Nat.sub_add_cancel h1] at this
    rw [hsnd]
    norm_num

/-- Claim C1 witness: fifteen concrete ascending bars give RSI exactly 100. -/
theorem claim1_witness :
    bars15.length = 15 ∧ (∀ i < 14, closeAt bars15 i < closeAt bars15 (i + 1)) ∧
      (AnalyzeCandlestickData bars15 itv1h).RSI = 100 :=
  ⟨by decide, by decide, claim1_amended bars15 itv1h (by decide) (by decide)⟩

/-- Claim C1 counterexample: with exactly 14 bars and all positive
close-to-close deltas (as the claim literally states), the RSI branch does not
run and `rsi14` is the 0 sentinel, not 100. -/
theorem claim1_counterexample :
    bars14.length = 14 ∧ (∀ i < 13, closeAt bars14 i < closeAt bars14 (i + 1)) ∧
      (AnalyzeCandlestickData bars14 itv1h).RSI = 0 ∧
      (AnalyzeCandlestickData bars14 itv1h).RSI ≠ 100 :=
  ⟨by decide, by decide, by decide, by decide⟩

/-- Claim C5: the windowing of the rasterizer keeps at most
`chartWidth / (candleWidth + candleGap)` bars, the kept bars are a suffix of
the input (the most recent ones, order preserved), and when the input exceeds
the bound the window is exactly the right-aligned trim. -/
theorem claim5_windowing (candles : List Candlestick) (config : ChartConfig)
    (visible : List Candlestick)
    (h : windowCandles candles (chartWidthOf config)
        (config.CandleWidth + config.CandleGap) = some visible) :
    (visible.length : ℤ) ≤
        goDiv (chartWidthOf config) (config.CandleWidth + config.CandleGap) ∧
      visible <:+ candles ∧
      (goDiv (chartWidthOf config) (config.CandleWidth + config.CandleGap) <
          (candles.length : ℤ) →
        visible = candles.drop (candles.length -
          (goDiv (chartWidthOf config) (config.CandleWidth + config.CandleGap)).toNat)) := by
  simp only [windowCandles] at h
  split_ifs at h with h0 hlt hneg
  · have hv : candles.drop (candles.length -
        (goDiv (chartWidthOf config) (config.CandleWidth + config.CandleGap)).toNat) =
        visible := Option.some.inj h
    refine ⟨?_, ?_, fun _ => hv.symm⟩
    · rw [← hv, List.length_drop]
      omega
    · rw [← hv]
      exact List.drop_suffix _ _
  · have hv : candles = visible := Option.some.inj h
    subst hv
    exact ⟨not_lt.mp hlt, List.suffix_refl _, fun hc => absurd hc hlt⟩

/-- Claim C5 witness: three bars under the default config are kept whole and
satisfy the windowing bound. -/
theorem claim5_witness :
    (bars3.length : ℤ) ≤
        goDiv (chartWidthOf DefaultChartConfig)
          (DefaultChartConfig.CandleWidth + DefaultChartConfig.CandleGap) ∧
      bars3 <:+ bars3 ∧
      (goDiv (chartWidthOf DefaultChartConfig)
          (DefaultChartConfig.CandleWidth + DefaultChartConfig.CandleGap) <
          (bars3.length : ℤ) →
        bars3 = bars3.drop (bars3.length -
          (goDiv (chartWidthOf DefaultChartConfig)
            (DefaultChartConfig.CandleWidth + DefaultChartConfig.CandleGap)).toNat)) :=
  claim5_windowing bars3 DefaultChartConfig bars3 (by decide)

/-- Claim C6: on an empty bar list, `Summarize` returns the all-zero summary
(`candleCount = 0`, not an error) and the render returns the explicit
"no candle data to render" failure with no image. -/
theorem claim6_empty_input (interval : String) (config : ChartConfig) :
    AnalyzeCandlestickData [] interval = {} ∧
      (AnalyzeCandlestickData [] interval).CandleCount = 0 ∧
      GenerateCandlestickChart [] config = .error .noData :=
  ⟨rfl, rfl, rfl⟩

/-- Claim C7 (amended): the grid helper draws `count + 1` horizontal rows
(the loop runs from 0 to `count` inclusive), so the rasterizer's call with
count 5 draws 6 dashed grid rows, not 5. -/
theorem claim7_amended (y1 y2 : ℤ) (count : ℕ) :
    (gridRowYs y1 y2 count).length = count + 1 := by
  unfold gridRowYs
  rw [List.length_map, List.length_range]

/-- Claim C7 counterexample: a successful default render carries 6 distinct
grid-row Y coordinates, not 5. -/
theorem claim7_counterexample :
    gridYsOf (GenerateCandlestickChart [barAt 0] DefaultChartConfig) =
        [60, 129, 198, 267, 336, 405] ∧
      (gridYsOf (GenerateCandlestickChart [barAt 0] DefaultChartConfig)).length ≠ 5 :=
  ⟨by decide, by decide⟩

/-- Claim C2 (amended): when `showMA` is set and the visible window has more
than 50 bars, the rasterizer always draws exactly the period-20 and period-50
polylines; `config.maPeriods` has no effect on which polylines appear (the
periods are hard-coded, contrary to the claim's "configured period list"). -/
theorem claim2_amended (candles : List Candlestick) (config : ChartConfig)
    (maxPrice priceRange : ℚ) (ps : List ℕ)
    (hma : config.ShowMA = true) (hlen : 50 < candles.length) :
    drawnMALines candles { config with MAperiods := ps } maxPrice priceRange =
        drawnMALines candles config maxPrice priceRange ∧
      (drawnMALines candles config maxPrice priceRange).map Prod.fst = [20, 50] := by
  constructor
  · rfl
  · simp only [drawnMALines, hma, if_true, if_pos hlen]
    rfl

/-- Claim C2 witness: 51 bars with the period list overridden to `[10]` draw
the same polylines as the default config, with periods 20 and 50. -/
theorem claim2_witness :
    drawnMALines bars51 { DefaultChartConfig with MAperiods := [10] } 60 55 =
        drawnMALines bars51 DefaultChartConfig 60 55 ∧
      (drawnMALines bars51 DefaultChartConfig 60 55).map Prod.fst = [20, 50] :=
  claim2_amended bars51 DefaultChartConfig 60 55 [10] rfl (by decide)

/-- Claim C2 counterexample: with `maPeriods = [10]` and 51 visible bars the
code draws the period-20 and period-50 polylines, while the spec's
"one polyline per configured period" reading would draw a period-10 one. -/
theorem claim2_counterexample :
    (drawnMALines bars51 cfgMA10 60 55).map Prod.fst = [20, 50] ∧
      (drawnMALinesPerSpec bars51 cfgMA10 60 55).map Prod.fst = [10] ∧
      ([20, 50] : List ℕ) ≠ [10] :=
  ⟨by decide, by decide, by decide⟩

/-- Claim C3 (amended): the pixel Y of a price in `[minPrice, maxPrice]` is
`chartTop + floor((maxPrice-price)/(maxPrice-minPrice)*chartHeight)` — Go's
`int(...)` conversion truncates (floor, for this nonnegative operand), it does
not round to nearest — and pixel Y is weakly decreasing as price increases. -/
theorem claim3_amended (chartTop chartHeight : ℤ) (minPrice maxPrice p1 p2 : ℚ)
    (hrange : minPrice < maxPrice) (hh : 0 ≤ chartHeight)
    (_h1 : minPrice ≤ p1) (h2 : p1 ≤ p2) (h3 : p2 ≤ maxPrice) :
    pixelY chartTop chartHeight maxPrice (maxPrice - minPrice) p1 =
        chartTop + ⌊(maxPrice - p1) / (maxPrice - minPrice) * (chartHeight : ℚ)⌋ ∧
      pixelY chartTop chartHeight maxPrice (maxPrice - minPrice) p2 ≤
        pixelY chartTop chartHeight maxPrice (maxPrice - minPrice) p1 := by
  have hr : (0 : ℚ) < maxPrice - minPrice := sub_pos.mpr hrange
  have hch : (0 : ℚ) ≤ (chartHeight : ℚ) := by exact_mod_cast hh
  have hq1 : (0 : ℚ) ≤ (maxPrice - p1) / (maxPrice - minPrice) * (chartHeight : ℚ) :=
    mul_nonneg (div_nonneg (by linarith) (le_of_lt hr)) hch
  have hq2 : (0 : ℚ) ≤ (maxPrice - p2) / (maxPrice - minPrice) * (chartHeight : ℚ) :=
    mul_nonneg (div_nonneg (by linarith) (le_of_lt hr)) hch
  have hmono : (maxPrice - p2) / (maxPrice - minPrice) * (chartHeight : ℚ) ≤
      (maxPrice - p1) / (maxPrice - minPrice) * (chartHeight : ℚ) :=
    mul_le_mul_of_nonneg_right ((div_le_div_iff_of_pos_right hr).mpr (by linarith)) hch
  constructor
  · simp [pixelY, goTrunc, hq1]
  · simp only [pixelY, goTrunc, if_pos hq1, if_pos hq2]
    exact add_le_add_left (Int.floor_le_floor hmono) chartTop

/-- Claim C3 witness: concrete instantiation of the truncation formula and the
monotonicity, on the domain `[0, 10]` with a 345-pixel-high chart. -/
theorem claim3_witness :
    pixelY 60 345 10 (10 - 0) 2 =
        60 + ⌊((10 : ℚ) - 2) / (10 - 0) * ((345 : ℤ) : ℚ)⌋ ∧
      pixelY 60 345 10 (10 - 0) 3 ≤ pixelY 60 345 10 (10 - 0) 2 :=
  claim3_amended 60 345 0 10 2 3 (by norm_num) (by norm_num) (by norm_num)
    (by norm_num) (by norm_num)

/-- Claim C3 counterexample: at price 1/2 on the domain `[0, 10]` with a
345-pixel-high chart, the code's truncating conversion gives pixel Y 387 while
the claimed round-to-nearest formula gives 388. -/
theorem claim3_counterexample :
    pixelY 60 345 10 (10 - 0) (1 / 2) = 387 ∧
      (60 : ℤ) + round (((10 : ℚ) - 1 / 2) / (10 - 0) * ((345 : ℤ) : ℚ)) = 388 ∧
      (387 : ℤ) ≠ 388 :=
  ⟨by decide, by decide, by decide⟩

/-- Claim C4 (amended): with an overlay, the domain is extended before the 5%
padding: the lower bound becomes `stopLoss * 0.995` when `0 < stopLoss < ` the
bar minimum, and the upper bound is raised for the first non-zero take-profit
above the bar maximum in the fixed order TP3, TP2, TP1 (index priority, not
the numerically highest level, contrary to the claim).  Every level between
the extended bounds — in particular such a stop-loss and the chosen
take-profit — is drawn strictly inside `(chartTop, chartBottom)`; a level
outside them can still be clipped (see the counterexample). -/
theorem claim4_amended (minLow maxHigh : ℚ) (lv : TradeLevels) (L : ℚ)
    (hrange : minLow < maxHigh)
    (hL1 : (extendBounds minLow maxHigh (some lv)).1 ≤ L)
    (hL2 : L ≤ (extendBounds minLow maxHigh (some lv)).2) :
    ((0 < lv.SL ∧ lv.SL < minLow) →
        (extendBounds minLow maxHigh (some lv)).1 = lv.SL * (995 / 1000) ∧
        (levelsBounds minLow maxHigh (some lv)).1 ≤ lv.SL * (995 / 1000)) ∧
      levelsChartTop <
        levelY (levelsBounds minLow maxHigh (some lv)).2
          ((levelsBounds minLow maxHigh (some lv)).2 -
            (levelsBounds minLow maxHigh (some lv)).1) L ∧
      levelY (levelsBounds minLow maxHigh (some lv)).2
          ((levelsBounds minLow maxHigh (some lv)).2 -
            (levelsBounds minLow maxHigh (some lv)).1) L
        < levelsChartBottom := by
  have he1 : (extendBounds minLow maxHigh (some lv)).1 ≤ minLow :=
    extendBounds_fst_le minLow maxHigh lv
  have he2 : maxHigh ≤ (extendBounds minLow maxHigh (some lv)).2 :=
    le_extendBounds_snd minLow maxHigh lv
  have hb1 : (levelsBounds minLow maxHigh (some lv)).1 =
      (extendBounds minLow maxHigh (some lv)).1 -
        ((extendBounds minLow maxHigh (some lv)).2 -
          (extendBounds minLow maxHigh (some lv)).1) * (5 / 100) := rfl
  have hb2 : (levelsBounds minLow maxHigh (some lv)).2 =
      (extendBounds minLow maxHigh (some lv)).2 +
        ((extendBounds minLow maxHigh (some lv)).2 -
          (extendBounds minLow maxHigh (some lv)).1) * (5 / 100) := rfl
  have hr0 : 0 < (extendBounds minLow maxHigh (some lv)).2 -
      (extendBounds minLow maxHigh (some lv)).1 := by linarith
  constructor
  · intro hsl
    refine ⟨extendBounds_fst_eq_sl minLow maxHigh lv hsl, ?_⟩
    rw [hb1, extendBounds_fst_eq_sl minLow maxHigh lv hsl]
    rw [extendBounds_fst_eq_sl minLow maxHigh lv hsl] at hr0
    linarith
  · have hT : levelsChartTop = 60 := rfl
    have hB : levelsChartBottom = 480 := by decide
    have hH : levelsChartHeight = 420 := by decide
    unfold levelY pixelY
    rw [hT, hH, hb1, hb2]
    set e1 := (extendBounds minLow maxHigh (some lv)).1 with hd1
    set e2 := (extendBounds minLow maxHigh (some lv)).2 with hd2
    set r := e2 - e1 with hdr
    have hR : (0 : ℚ) < (e2 + r * (5 / 100)) - (e1 - r * (5 / 100)) := by
      rw [hdr]; linarith
    have hup : e2 + r * (5 / 100) - L ≤ r + r * (5 / 100) + r * (5 / 100) := by
      rw [hdr]; linarith
    have hlow : r * (5 / 100) ≤ e2 + r * (5 / 100) - L := by linarith
    have hq19 : (19 : ℚ) ≤ (e2 + r * (5 / 100) - L) /
        ((e2 + r * (5 / 100)) - (e1 - r * (5 / 100))) * ((420 : ℤ) : ℚ) := by
      rw [div_mul_eq_mul_div, le_div_iff₀ hR]
      push_cast
      nlinarith
    have hq401 : (e2 + r * (5 / 100) - L) /
        ((e2 + r * (5 / 100)) - (e1 - r * (5 / 100))) * ((420 : ℤ) : ℚ) < 401 := by
      rw [div_mul_eq_mul_div, div_lt_iff₀ hR]
      push_cast
      nlinarith
    have h0q : (0 : ℚ) ≤ (e2 + r * (5 / 100) - L) /
        ((e2 + r * (5 / 100)) - (e1 - r * (5 / 100))) * ((420 : ℤ) : ℚ) := by
      linarith
    obtain ⟨hfl, hfu⟩ := goTrunc_bounds _ 19 401 h0q (by push_cast at hq19 ⊢; linarith)
      (by push_cast at hq401 ⊢; linarith)
    rw [hB]
    omega

/-- Claim C4 witness: for the 10-20 price range with stop-loss 8 and TP3 30,
the extended lower bound is exactly `8 * 0.995` and the stop-loss line (at
that price) is strictly inside the vertical chart interval. -/
theorem claim4_witness :
    ((0 < lvOrdered.SL ∧ lvOrdered.SL < 10) →
        (extendBounds 10 20 (some lvOrdered)).1 = lvOrdered.SL * (995 / 1000) ∧
        (levelsBounds 10 20 (some lvOrdered)).1 ≤ lvOrdered.SL * (995 / 1000)) ∧
      levelsChartTop <
        levelY (levelsBounds 10 20 (some lvOrdered)).2
          ((levelsBounds 10 20 (some lvOrdered)).2 -
            (levelsBounds 10 20 (some lvOrdered)).1) (lvOrdered.SL * (995 / 1000)) ∧
      levelY (levelsBounds 10 20 (some lvOrdered)).2
          ((levelsBounds 10 20 (some lvOrdered)).2 -
            (levelsBounds 10 20 (some lvOrdered)).1) (lvOrdered.SL * (995 / 1000))
        < levelsChartBottom :=
  claim4_amended 10 20 lvOrdered (lvOrdered.SL * (995 / 1000)) (by norm_num)
    (by decide) (by decide)

/-- Claim C4 counterexample: with bar range 10-20 and take-profits TP1 = 100,
TP3 = 30 (both above the bar maximum), the code extends the domain for TP3
only, so the numerically highest active take-profit TP1 is NOT included
(mapping maximum < TP1 * 1.005) and its level line is drawn at Y = -1244,
clipped far above `chartTop`. -/
theorem claim4_counterexample :
    rawPriceBounds [bar1020] = (10, 20) ∧
      lvUnordered.TP1 = 100 ∧ (20 : ℚ) < lvUnordered.TP1 ∧
      maxPriceOfLevels (GenerateChartWithLevels [bar1020] (some lvUnordered)) <
        lvUnordered.TP1 * (1005 / 1000) ∧
      (("TP1", (-1244 : ℤ)) ∈
        levelLinesOf (GenerateChartWithLevels [bar1020] (some lvUnordered))) ∧
      ((-1244 : ℤ) < levelsChartTop) :=
  ⟨by decide, by decide, by decide, by decide, by decide, by decide⟩

/-- Claim C8 (amended): for more than 10 bars, the first `lastCandles` entry's
`changePct` is computed from the close of the bar immediately preceding the
window in the FULL sequence (index `len-11`), not left at 0; the field is left
uncomputed (0) exactly when the entry is the very first bar of the sequence,
though the computed value can also equal 0 when consecutive closes are equal
(see the counterexample). -/
theorem claim8_amended (candles : List Candlestick) (interval : String)
    (h : 10 < candles.length) :
    (AnalyzeCandlestickData candles interval).LastCandles.head? =
        some (mkCandleSimple candles (candles.length - 10)) ∧
      (mkCandleSimple candles (candles.length - 10)).Change =
        ((closeAt candles (candles.length - 10) - closeAt candles (candles.length - 11)) /
          closeAt candles (candles.length - 11)) * 100 := by
  constructor
  · cases candles with
    | nil => exact absurd h (by decide)
    | cons c0 rest =>
      have hproj : (AnalyzeCandlestickData (c0 :: rest) interval).LastCandles =
          lastCandlesOf (c0 :: rest) := rfl
      rw [hproj]
      simp only [lastCandlesOf]
      have h9 : (c0 :: rest).length - ((c0 :: rest).length - 10) = 9 + 1 := by
        omega
      rw [h9, List.range'_succ, List.map_cons, List.head?_cons]
  · have hpos : 0 < candles.length - 10 := by omega
    have h11 : candles.length - 10 - 1 = candles.length - 11 := by omega
    simp [mkCandleSimple, closeAt, hpos, h11]

/-- Claim C8 witness: on 15 concrete ascending bars the head of the window is
the bar at index 5 and its change is computed against the close at index 4. -/
theorem claim8_witness :
    (AnalyzeCandlestickData bars15 itv1h).LastCandles.head? =
        some (mkCandleSimple bars15 (bars15.length - 10)) ∧
      (mkCandleSimple bars15 (bars15.length - 10)).Change =
        ((closeAt bars15 (bars15.length - 10) - closeAt bars15 (bars15.length - 11)) /
          closeAt bars15 (bars15.length - 11)) * 100 :=
  claim8_amended bars15 itv1h (by decide)

/-- Claim C8 counterexample: on 11 flat bars the first windowed candle is the
bar at index 1 — not the very first bar of the sequence — yet its `changePct`
is 0 (equal consecutive closes), refuting "changePct is 0 only when the
windowed candle is the very first bar". -/
theorem claim8_counterexample :
    10 < flat11.length ∧
      (AnalyzeCandlestickData flat11 itv1h).LastCandles.head? =
        some (mkCandleSimple flat11 1) ∧
      ((AnalyzeCandlestickData flat11 itv1h).LastCandles.headD default).Change = 0 :=
  ⟨by decide, by decide, by decide⟩

/-- Claim C9 (code behaviour at the failing input): with a non-empty bar list
and a config whose plot area is narrower than one candle slot, the trim
yields an EMPTY window (`maxCandles = 0`), and the subsequent read of the last
visible candle at `chart.go:197` is out of bounds — the render panics instead
of producing an image, contradicting the claimed in-bounds safety. -/
theorem claim9_failing_eval :
    ([bar1020] : List Candlestick) ≠ [] ∧
      chartWidthOf cfgNarrow < cfgNarrow.CandleWidth + cfgNarrow.CandleGap ∧
      windowCandles [bar1020] (chartWidthOf cfgNarrow)
          (cfgNarrow.CandleWidth + cfgNarrow.CandleGap) = some [] ∧
      GenerateCandlestickChart [bar1020] cfgNarrow = .error .panicIndexOutOfRange :=
  ⟨by decide, by decide, by decide, rfl⟩

/-- Claim C10: whenever the maximum high strictly exceeds the minimum low, the
padded price range used as the divisor of every pixel-Y computation is
strictly positive (it equals 1.1 times the raw range). -/
theorem claim10_padded_range_pos (candles : List Candlestick)
    (h : (rawPriceBounds candles).1 < (rawPriceBounds candles).2) :
    0 < (paddedBounds (rawPriceBounds candles).1 (rawPriceBounds candles).2).2 -
        (paddedBounds (rawPriceBounds candles).1 (rawPriceBounds candles).2).1 := by
  simp only [paddedBounds]
  linarith

/-- Claim C10 witness: the padded range of three concrete ascending bars is
strictly positive. -/
theorem claim10_witness :
    0 < (paddedBounds (rawPriceBounds bars3).1 (rawPriceBounds bars3).2).2 -
        (paddedBounds (rawPriceBounds bars3).1 (rawPriceBounds bars3).2).1 :=
  claim10_padded_range_pos bars3 (by decide)

end Goliz
